import Mathlib

/-!
Verification of the incident-response tracker core
(`incident_tracker.py`): record store load semantics, the create and
update mutations with controlled-vocabulary validation, filtered
listing, and aggregate counts.

Modelling conventions:
* Python dict records become the structure `Incident`; fields the code
  reads with `dict.get` (owner, notes, updated_at) are `Option String`.
* `sys.exit(msg)` during validation, and the not-found fall-through of
  `update_incident`, terminate the operation before `_save` runs; both
  are modelled as `Except.error`, and `persistedAfterAdd` /
  `persistedAfterUpdate` give the file contents after the run (the old
  store on error, since `_save` is only reached on success).
* `uuid.uuid4()[:8]` and `datetime.utcnow()` are nondeterministic
  environment inputs; they are passed as explicit `genId` / `now`
  arguments.
* `json.load` either raises `JSONDecodeError` or returns a JSON value;
  the persisted file is modelled by `FileState` with exactly those
  outcomes plus absence.
-/

/-- JSON values, as returned by `json.load`. -/
inductive Json where
  | null
  | bool (b : Bool)
  | num (n : Int)
  | str (s : String)
  | arr (items : List Json)
  | obj (fields : List (String × Json))

/-- State of the persisted store file `incidents.json`: missing, present
with content that raises `JSONDecodeError`, or present with content that
parses as the JSON value `j`. -/
inductive FileState where
  | absent
  | corrupt
  | holds (j : Json)

/-- The `_load` helper: missing file gives `[]`, a `JSONDecodeError`
gives `[]`, and otherwise the parsed JSON value is returned as-is
(whatever its shape). -/
def _load : FileState → Json
  | FileState.absent => Json.arr []
  | FileState.corrupt => Json.arr []
  | FileState.holds j => j

/-- Python `str.lower()`: lower-case every character.  (Identical in
effect to `String.toLower`, but defined by a structural `List.map` so
that concrete instances evaluate inside the kernel.) -/
def pyLower (s : String) : String :=
  String.mk (s.data.map Char.toLower)

/-- `NIST_PHASES` constant from the source. -/
def NIST_PHASES : List String := ["identify", "protect", "detect", "respond", "recover"]

/-- `STATUSES` constant from the source. -/
def STATUSES : List String := ["open", "in_progress", "contained", "eradicated", "recovered", "closed"]

/-- `SEVERITIES` constant from the source. -/
def SEVERITIES : List String := ["low", "medium", "high", "critical"]

/-- An incident record.  Fields that every record produced by
`add_incident` carries are plain `String`; fields the code accesses
defensively (`inc.get(...)`) are `Option String` so that records from a
seeded store without them are representable. -/
structure Incident where
  id : String
  title : String
  category : String
  severity : String
  phase : String
  status : String
  reported_at : String
  updated_at : Option String
  owner : Option String
  notes : Option String
deriving Repr, DecidableEq

/-- Errors that abort an operation before `_save`: `sys.exit` on a
vocabulary violation, and the no-matching-id fall-through of
`update_incident`. -/
inductive TrackerError where
  | validationError (msg : String)
  | notFound (id : String)
deriving Repr, DecidableEq

/-- Python truthiness of an optional string argument (`argparse` yields
`None` when a flag is not given): truthy iff present and non-empty. -/
def truthy (o : Option String) : Bool :=
  o.getD "" != ""

/-- Arguments of the `add` subcommand. -/
structure AddArgs where
  title : String
  category : String
  severity : String
  phase : String
  owner : Option String
  notes : Option String
deriving Repr, DecidableEq

/-- The record literal built at the top of `add_incident`:
`category` / `severity` / `phase` lower-cased, `status` fixed to
`"open"`, `owner` and `notes` defaulted to `""` by `args.owner or ""`. -/
def mkIncident (genId now : String) (a : AddArgs) : Incident :=
  { id := genId
    title := a.title
    category := pyLower a.category
    severity := pyLower a.severity
    phase := pyLower a.phase
    status := "open"
    reported_at := now
    updated_at := none
    owner := some (a.owner.getD "")
    notes := some (a.notes.getD "") }

/-- `add_incident`: build the record, validate severity then phase
against their vocabularies (`sys.exit` on failure, before any save),
then append and save. -/
def add_incident (genId now : String) (a : AddArgs) (data : List Incident) :
    Except TrackerError (List Incident) :=
  let inc := mkIncident genId now a
  if inc.severity ∉ SEVERITIES then
    Except.error (TrackerError.validationError
      ("Invalid severity. Use one of: " ++ String.intercalate ", " SEVERITIES))
  else if inc.phase ∉ NIST_PHASES then
    Except.error (TrackerError.validationError
      ("Invalid phase. Use one of: " ++ String.intercalate ", " NIST_PHASES))
  else
    Except.ok (data ++ [inc])

/-- File contents after running `add_incident`: `_save` runs only on the
success path, so an aborted run leaves the old store on disk. -/
def persistedAfterAdd (genId now : String) (a : AddArgs) (data : List Incident) :
    List Incident :=
  match add_incident genId now a data with
  | Except.ok d2 => d2
  | Except.error _ => data

/-- Arguments of the `update` subcommand. -/
structure UpdateArgs where
  id : String
  status : Option String
  phase : Option String
  owner : Option String
  notes : Option String
deriving Repr, DecidableEq

/-- Tail of the matched-record branch of `update_incident`: owner is
replaced whenever supplied (`is not None`, empty string included), a
truthy notes argument is appended to existing notes with a newline
separator when the existing notes are non-empty, and `updated_at` is
stamped. -/
def applyRest (now : String) (a : UpdateArgs) (inc : Incident) : Incident :=
  let inc1 := if a.owner.isSome then { inc with owner := a.owner } else inc
  let sep : String := if truthy inc1.notes then inc1.notes.getD "" ++ "\n" else ""
  let inc2 :=
    if truthy a.notes then { inc1 with notes := some (sep ++ a.notes.getD "") }
    else inc1
  { inc2 with updated_at := some now }

/-- Phase step of the matched-record branch: a truthy phase argument is
validated against `NIST_PHASES` (`sys.exit` on failure) and applied
lower-cased. -/
def applyPhase (now : String) (a : UpdateArgs) (inc : Incident) :
    Except TrackerError Incident :=
  if truthy a.phase then
    if pyLower (a.phase.getD "") ∈ NIST_PHASES then
      Except.ok (applyRest now a { inc with phase := pyLower (a.phase.getD "") })
    else
      Except.error (TrackerError.validationError
        ("Invalid phase. Use: " ++ String.intercalate ", " NIST_PHASES))
  else
    Except.ok (applyRest now a inc)

/-- Status step of the matched-record branch: a truthy status argument
is validated against `STATUSES` (`sys.exit` on failure) and applied
lower-cased, then the phase step runs. -/
def applyStatus (now : String) (a : UpdateArgs) (inc : Incident) :
    Except TrackerError Incident :=
  if truthy a.status then
    if pyLower (a.status.getD "") ∈ STATUSES then
      applyPhase now a { inc with status := pyLower (a.status.getD "") }
    else
      Except.error (TrackerError.validationError
        ("Invalid status. Use: " ++ String.intercalate ", " STATUSES))
  else
    applyPhase now a inc

/-- `update_incident`: scan for the first record whose id equals the
argument; mutate it (status, phase, owner, notes, `updated_at`) and save,
or report not-found after the loop without saving. -/
def update_incident (now : String) (a : UpdateArgs) :
    List Incident → Except TrackerError (List Incident)
  | [] => Except.error (TrackerError.notFound a.id)
  | inc :: rest =>
    if inc.id == a.id then
      (applyStatus now a inc).map (fun inc2 => inc2 :: rest)
    else
      (update_incident now a rest).map (fun rest2 => inc :: rest2)

/-- File contents after running `update_incident`: the old store unless
the success path reached `_save`. -/
def persistedAfterUpdate (now : String) (a : UpdateArgs) (data : List Incident) :
    List Incident :=
  match update_incident now a data with
  | Except.ok d2 => d2
  | Except.error _ => data

/-- Arguments of the `list` subcommand. -/
structure ListArgs where
  severity : Option String
  phase : Option String
  status : Option String
  owner : Option String
deriving Repr, DecidableEq

/-- One record passes the filter loop of `list_incidents` iff no
`continue` fires: each truthy argument must match — severity, phase and
status compare the stored value against the lower-cased argument, owner
compares both sides lower-cased with the stored owner defaulting to
`""`. -/
def passes (a : ListArgs) (inc : Incident) : Bool :=
  (!truthy a.severity || inc.severity == pyLower (a.severity.getD "")) &&
  (!truthy a.phase || inc.phase == pyLower (a.phase.getD "")) &&
  (!truthy a.status || inc.status == pyLower (a.status.getD "")) &&
  (!truthy a.owner || pyLower (inc.owner.getD "") == pyLower (a.owner.getD ""))

/-- `list_incidents`: keep, in store order, the records that pass every
supplied predicate. -/
def list_incidents (a : ListArgs) (data : List Incident) : List Incident :=
  data.filter (passes a)

/-- First-seen-order deduplication, the key order of a Python
`collections.Counter` built from a list. -/
def dedupFirst : List String → List String
  | [] => []
  | x :: xs => x :: dedupFirst (xs.filter (fun y => !(y == x)))
termination_by xs => xs.length
decreasing_by
  simp only [List.length_cons]
  exact Nat.lt_succ_of_le (List.length_filter_le _ _)

/-- `collections.Counter` over a list of strings, as an association list
in first-seen key order. -/
def counter (xs : List String) : List (String × Nat) :=
  (dedupFirst xs).map (fun k => (k, xs.count k))

/-- The three groupings computed by `stats`: counts by severity, by
phase, and by status. -/
def stats (data : List Incident) :
    List (String × Nat) × List (String × Nat) × List (String × Nat) :=
  (counter (data.map (fun d => d.severity)),
   counter (data.map (fun d => d.phase)),
   counter (data.map (fun d => d.status)))

/-! ### Helper lemmas about the update path -/

theorem truthy_none : truthy none = false := rfl

theorem truthy_eq_false_of_getD (o : Option String) (h : o.getD "" = "") :
    truthy o = false := by
  simp [truthy, h]

theorem applyRest_id (now : String) (a : UpdateArgs) (inc : Incident) :
    (applyRest now a inc).id = inc.id := by
  simp only [applyRest]
  by_cases h1 : a.owner.isSome <;> by_cases h2 : truthy a.notes <;> simp [h1, h2]

theorem applyPhase_ok_id (now : String) (a : UpdateArgs) (inc inc2 : Incident)
    (h : applyPhase now a inc = Except.ok inc2) : inc2.id = inc.id := by
  unfold applyPhase at h
  split at h
  · split at h
    · simp only [Except.ok.injEq] at h
      rw [← h]
      exact applyRest_id now a _
    · simp at h
  · simp only [Except.ok.injEq] at h
    rw [← h]
    exact applyRest_id now a _

theorem applyStatus_ok_id (now : String) (a : UpdateArgs) (inc inc2 : Incident)
    (h : applyStatus now a inc = Except.ok inc2) : inc2.id = inc.id := by
  unfold applyStatus at h
  split at h
  · split at h
    · exact applyPhase_ok_id now a { inc with status := pyLower (a.status.getD "") } inc2 h
    · simp at h
  · exact applyPhase_ok_id now a inc inc2 h

theorem update_skips_front (now : String) (a : UpdateArgs) (pre rest : List Incident)
    (h : ∀ x ∈ pre, x.id ≠ a.id) :
    update_incident now a (pre ++ rest) =
      (update_incident now a rest).map (fun t => pre ++ t) := by
  induction pre with
  | nil =>
    cases hu : update_incident now a rest <;> simp [Except.map, hu]
  | cons x xs ih =>
    have hx : (x.id == a.id) = false := by
      simp only [beq_eq_false_iff_ne]
      exact h x (List.mem_cons_self x xs)
    have ih2 := ih (fun y hy => h y (List.mem_cons_of_mem x hy))
    cases hu : update_incident now a rest <;>
      simp [List.cons_append, update_incident, hx, ih2, hu, Except.map]

theorem update_match_head (now : String) (a : UpdateArgs) (r : Incident)
    (suf : List Incident) (h : r.id = a.id) :
    update_incident now a (r :: suf) =
      (applyStatus now a r).map (fun r2 => r2 :: suf) := by
  have hx : (r.id == a.id) = true := by simp [h]
  simp [update_incident, hx]

/-! ### Claim C2 -/

/-- C2 counterexample: a store file holding the valid JSON text of an
empty object is malformed as a sequence of records, yet `_load` returns
that object unchanged, not an empty sequence. -/
theorem load_nonarray_cex :
    _load (FileState.holds (Json.obj [])) = Json.obj [] ∧
    Json.obj [] ≠ Json.arr [] :=
  ⟨rfl, fun h => Json.noConfusion h⟩

/-- C2 (amended): `_load` returns the empty array when the store file is
absent or its content fails JSON parsing, and returns syntactically
valid JSON content as-is, whatever its shape. -/
theorem load_semantics :
    _load FileState.absent = Json.arr [] ∧
    _load FileState.corrupt = Json.arr [] ∧
    ∀ j : Json, _load (FileState.holds j) = j :=
  ⟨rfl, rfl, fun _ => rfl⟩

/-! ### Claim C5 -/

/-- C5: when no record in the store has the requested id,
`update_incident` falls through to the not-found report and `_save` is
never reached, so the persisted store is exactly the old one. -/
theorem update_not_found (now : String) (a : UpdateArgs) (s : List Incident)
    (h : ∀ r ∈ s, r.id ≠ a.id) :
    update_incident now a s = Except.error (TrackerError.notFound a.id) ∧
    persistedAfterUpdate now a s = s := by
  have e : update_incident now a s = Except.error (TrackerError.notFound a.id) := by
    induction s with
    | nil => rfl
    | cons x xs ih =>
      have hx : (x.id == a.id) = false := by
        simp only [beq_eq_false_iff_ne]
        exact h x (List.mem_cons_self x xs)
      have ih2 := ih (fun y hy => h y (List.mem_cons_of_mem x hy))
      simp [update_incident, hx, ih2, Except.map]
  exact ⟨e, by unfold persistedAfterUpdate; rw [e]⟩

/-- C5 witness: a concrete one-record store and a foreign id. -/
theorem update_not_found_witness :
    update_incident "t1" { id := "zz", status := none, phase := none, owner := none, notes := none }
        [{ id := "a1", title := "t", category := "c", severity := "low", phase := "detect",
           status := "open", reported_at := "t0", updated_at := none,
           owner := some "", notes := some "" }] =
      Except.error (TrackerError.notFound "zz") ∧
    persistedAfterUpdate "t1" { id := "zz", status := none, phase := none, owner := none, notes := none }
        [{ id := "a1", title := "t", category := "c", severity := "low", phase := "detect",
           status := "open", reported_at := "t0", updated_at := none,
           owner := some "", notes := some "" }] =
      [{ id := "a1", title := "t", category := "c", severity := "low", phase := "detect",
         status := "open", reported_at := "t0", updated_at := none,
         owner := some "", notes := some "" }] :=
  update_not_found "t1" _ _ (by decide)

/-! ### Claim C6 -/

/-- C6: a severity outside the vocabulary makes `add_incident` abort via
`sys.exit` with the message listing the accepted severities, before
`_save`; the persisted store is unchanged. -/
theorem add_invalid_severity (genId now : String) (a : AddArgs) (s : List Incident)
    (h : pyLower a.severity ∉ SEVERITIES) :
    add_incident genId now a s = Except.error (TrackerError.validationError
      ("Invalid severity. Use one of: " ++ String.intercalate ", " SEVERITIES)) ∧
    persistedAfterAdd genId now a s = s := by
  have e : add_incident genId now a s = Except.error (TrackerError.validationError
      ("Invalid severity. Use one of: " ++ String.intercalate ", " SEVERITIES)) := by
    simp [add_incident, mkIncident, h]
  exact ⟨e, by unfold persistedAfterAdd; rw [e]⟩

/-- C6 witness: severity `"EXTREME"` on a concrete store. -/
theorem add_invalid_severity_witness :
    add_incident "id01" "t0"
        { title := "x", category := "Phishing", severity := "EXTREME", phase := "detect",
          owner := none, notes := none }
        [{ id := "a1", title := "t", category := "c", severity := "low", phase := "detect",
           status := "open", reported_at := "t0", updated_at := none,
           owner := some "", notes := some "" }] =
      Except.error (TrackerError.validationError
        ("Invalid severity. Use one of: " ++ String.intercalate ", " SEVERITIES)) ∧
    persistedAfterAdd "id01" "t0"
        { title := "x", category := "Phishing", severity := "EXTREME", phase := "detect",
          owner := none, notes := none }
        [{ id := "a1", title := "t", category := "c", severity := "low", phase := "detect",
           status := "open", reported_at := "t0", updated_at := none,
           owner := some "", notes := some "" }] =
      [{ id := "a1", title := "t", category := "c", severity := "low", phase := "detect",
         status := "open", reported_at := "t0", updated_at := none,
         owner := some "", notes := some "" }] :=
  add_invalid_severity "id01" "t0" _ _ (by decide)

/-! ### Claim C10 -/

theorem applyStatus_noop (now : String) (a : UpdateArgs)
    (hst : truthy a.status = false) (hph : truthy a.phase = false)
    (how : a.owner = none) (hnt : truthy a.notes = false) (inc : Incident) :
    applyStatus now a inc = Except.ok { inc with updated_at := some now } := by
  simp [applyStatus, applyPhase, applyRest, hst, hph, how, hnt]

/-- C10: an update that supplies no status, phase, owner or notes (or
only empty-string status, phase or notes, which Python truthiness skips
before any validation) still takes the success path: the first matched
record gets `updated_at` stamped with the current time, every other
field and every other record is unchanged, and the store is persisted. -/
theorem update_touch_only (now : String) (a : UpdateArgs) (pre suf : List Incident)
    (r : Incident) (hpre : ∀ x ∈ pre, x.id ≠ a.id) (hr : r.id = a.id)
    (hst : truthy a.status = false) (hph : truthy a.phase = false)
    (how : a.owner = none) (hnt : truthy a.notes = false) :
    update_incident now a (pre ++ r :: suf) =
      Except.ok (pre ++ { r with updated_at := some now } :: suf) ∧
    persistedAfterUpdate now a (pre ++ r :: suf) =
      pre ++ { r with updated_at := some now } :: suf := by
  have e : update_incident now a (pre ++ r :: suf) =
      Except.ok (pre ++ { r with updated_at := some now } :: suf) := by
    rw [update_skips_front now a pre (r :: suf) hpre,
        update_match_head now a r suf hr,
        applyStatus_noop now a hst hph how hnt r]
    rfl
  exact ⟨e, by unfold persistedAfterUpdate; rw [e]⟩

/-- C10 witness: empty-string status and notes on a two-record store. -/
theorem update_touch_only_witness :
    update_incident "t9"
        { id := "b2", status := some "", phase := none, owner := none, notes := some "" }
        ([{ id := "a1", title := "t", category := "c", severity := "low", phase := "detect",
            status := "open", reported_at := "t0", updated_at := none,
            owner := some "", notes := some "" }] ++
         { id := "b2", title := "u", category := "c", severity := "high", phase := "respond",
           status := "open", reported_at := "t1", updated_at := none,
           owner := some "me", notes := some "n" } :: []) =
      Except.ok
        ([{ id := "a1", title := "t", category := "c", severity := "low", phase := "detect",
            status := "open", reported_at := "t0", updated_at := none,
            owner := some "", notes := some "" }] ++
         { id := "b2", title := "u", category := "c", severity := "high", phase := "respond",
           status := "open", reported_at := "t1", updated_at := some "t9",
           owner := some "me", notes := some "n" } :: []) ∧
    persistedAfterUpdate "t9"
        { id := "b2", status := some "", phase := none, owner := none, notes := some "" }
        ([{ id := "a1", title := "t", category := "c", severity := "low", phase := "detect",
            status := "open", reported_at := "t0", updated_at := none,
            owner := some "", notes := some "" }] ++
         { id := "b2", title := "u", category := "c", severity := "high", phase := "respond",
           status := "open", reported_at := "t1", updated_at := none,
           owner := some "me", notes := some "n" } :: []) =
      ([{ id := "a1", title := "t", category := "c", severity := "low", phase := "detect",
          status := "open", reported_at := "t0", updated_at := none,
          owner := some "", notes := some "" }] ++
       { id := "b2", title := "u", category := "c", severity := "high", phase := "respond",
         status := "open", reported_at := "t1", updated_at := some "t9",
         owner := some "me", notes := some "n" } :: []) :=
  update_touch_only "t9" _ _ _ _ (by decide) (by decide)
    (by decide) (by decide) rfl (by decide)

/-! ### Claim C1 -/

theorem applyStatus_bad (now : String) (a : UpdateArgs) (inc : Incident)
    (hbad : (truthy a.status = true ∧ pyLower (a.status.getD "") ∉ STATUSES) ∨
            (truthy a.phase = true ∧ pyLower (a.phase.getD "") ∉ NIST_PHASES)) :
    ∃ m, applyStatus now a inc = Except.error (TrackerError.validationError m) := by
  rcases hbad with ⟨ht, hs⟩ | ⟨ht, hp⟩
  · exact ⟨"Invalid status. Use: " ++ String.intercalate ", " STATUSES,
      by simp [applyStatus, ht, hs]⟩
  · by_cases hst : truthy a.status
    · by_cases hv : pyLower (a.status.getD "") ∈ STATUSES
      · exact ⟨"Invalid phase. Use: " ++ String.intercalate ", " NIST_PHASES,
          by simp [applyStatus, applyPhase, hst, hv, ht, hp]⟩
      · exact ⟨"Invalid status. Use: " ++ String.intercalate ", " STATUSES,
          by simp [applyStatus, hst, hv]⟩
    · exact ⟨"Invalid phase. Use: " ++ String.intercalate ", " NIST_PHASES,
        by simp [applyStatus, applyPhase, hst, ht, hp]⟩

theorem update_bad_aux (now : String) (a : UpdateArgs)
    (hbad : (truthy a.status = true ∧ pyLower (a.status.getD "") ∉ STATUSES) ∨
            (truthy a.phase = true ∧ pyLower (a.phase.getD "") ∉ NIST_PHASES)) :
    ∀ s : List Incident, (∃ r ∈ s, r.id = a.id) →
      ∃ m, update_incident now a s = Except.error (TrackerError.validationError m) := by
  intro s
  induction s with
  | nil => intro hmem; simp at hmem
  | cons x xs ih =>
    intro hmem
    by_cases hx : (x.id == a.id) = true
    · obtain ⟨m, hm⟩ := applyStatus_bad now a x hbad
      exact ⟨m, by simp [update_incident, hx, hm, Except.map]⟩
    · have hx2 : (x.id == a.id) = false := by simpa using hx
      rcases hmem with ⟨r, hr, hid⟩
      rcases List.mem_cons.mp hr with h1 | h2
      · exfalso
        apply hx
        rw [h1] at hid
        simp [hid]
      · obtain ⟨m, hm⟩ := ih ⟨r, h2, hid⟩
        exact ⟨m, by simp [update_incident, hx2, hm, Except.map]⟩

/-- C1: an update on an id present in the store, where the supplied
status or the supplied phase fails its vocabulary check, aborts via
`sys.exit` with a validation message before `_save` runs; the persisted
store is byte-for-byte the old one, even when an earlier supplied field
had already been checked and applied to the in-memory record. -/
theorem update_validation_aborts (now : String) (a : UpdateArgs) (s : List Incident)
    (hmem : ∃ r ∈ s, r.id = a.id)
    (hbad : (truthy a.status = true ∧ pyLower (a.status.getD "") ∉ STATUSES) ∨
            (truthy a.phase = true ∧ pyLower (a.phase.getD "") ∉ NIST_PHASES)) :
    (∃ m, update_incident now a s = Except.error (TrackerError.validationError m)) ∧
    persistedAfterUpdate now a s = s := by
  obtain ⟨m, hm⟩ := update_bad_aux now a hbad s hmem
  exact ⟨⟨m, hm⟩, by unfold persistedAfterUpdate; rw [hm]⟩

/-- C1 witness: valid status `"closed"` together with invalid phase
`"blocked"` on a store containing the requested id — the status was
checked and applied in memory first, yet nothing is persisted. -/
theorem update_validation_aborts_witness :
    (∃ m, update_incident "t5"
        { id := "a1", status := some "closed", phase := some "blocked",
          owner := none, notes := none }
        [{ id := "a1", title := "t", category := "c", severity := "low", phase := "detect",
           status := "open", reported_at := "t0", updated_at := none,
           owner := some "", notes := some "" }] =
      Except.error (TrackerError.validationError m)) ∧
    persistedAfterUpdate "t5"
        { id := "a1", status := some "closed", phase := some "blocked",
          owner := none, notes := none }
        [{ id := "a1", title := "t", category := "c", severity := "low", phase := "detect",
           status := "open", reported_at := "t0", updated_at := none,
           owner := some "", notes := some "" }] =
      [{ id := "a1", title := "t", category := "c", severity := "low", phase := "detect",
         status := "open", reported_at := "t0", updated_at := none,
         owner := some "", notes := some "" }] :=
  update_validation_aborts "t5" _ _ ⟨_, List.mem_singleton.mpr rfl, rfl⟩
    (Or.inr ⟨by decide, by decide⟩)

/-! ### Claim C3 -/

theorem applyStatus_notes_only (now i txt : String) (inc : Incident) (htxt : txt ≠ "") :
    applyStatus now { id := i, status := none, phase := none, owner := none, notes := some txt }
        inc =
      Except.ok { inc with
        notes := some ((if truthy inc.notes then inc.notes.getD "" ++ "\n" else "") ++ txt),
        updated_at := some now } := by
  simp [applyStatus, applyPhase, applyRest, truthy, htxt]

/-- C3: on a store whose first record with the requested id has empty
notes, updating with notes `"a"` stores `"a"` (no separator), and a
second update with notes `"b"` appends after a newline, giving
`"a\nb"`; existing notes are preserved, not replaced. -/
theorem update_notes_append (now1 now2 i : String) (pre suf : List Incident) (r : Incident)
    (hpre : ∀ x ∈ pre, x.id ≠ i) (hr : r.id = i) (hempty : r.notes.getD "" = "") :
    update_incident now1 { id := i, status := none, phase := none, owner := none, notes := some "a" }
        (pre ++ r :: suf) =
      Except.ok (pre ++ { r with notes := some "a", updated_at := some now1 } :: suf) ∧
    update_incident now2 { id := i, status := none, phase := none, owner := none, notes := some "b" }
        (pre ++ { r with notes := some "a", updated_at := some now1 } :: suf) =
      Except.ok (pre ++ { r with notes := some "a\nb", updated_at := some now2 } :: suf) := by
  have hft : truthy r.notes = false := truthy_eq_false_of_getD r.notes hempty
  constructor
  · rw [update_skips_front now1 _ pre (r :: suf) hpre,
        update_match_head now1 _ r suf hr,
        applyStatus_notes_only now1 i "a" r (by decide)]
    rw [hft]
    rfl
  · rw [update_skips_front now2 _ pre _ hpre,
        update_match_head now2
          { id := i, status := none, phase := none, owner := none, notes := some "b" }
          { r with notes := some "a", updated_at := some now1 } suf hr,
        applyStatus_notes_only now2 i "b"
          { r with notes := some "a", updated_at := some now1 } (by decide)]
    rfl

/-- C3 witness: a concrete record with empty notes. -/
theorem update_notes_append_witness :
    update_incident "t1" { id := "a1", status := none, phase := none, owner := none, notes := some "a" }
        ([] ++ { id := "a1", title := "t", category := "c", severity := "low", phase := "detect",
                 status := "open", reported_at := "t0", updated_at := none,
                 owner := some "", notes := some "" } :: []) =
      Except.ok ([] ++ { id := "a1", title := "t", category := "c", severity := "low", phase := "detect",
                         status := "open", reported_at := "t0", updated_at := some "t1",
                         owner := some "", notes := some "a" } :: []) ∧
    update_incident "t2" { id := "a1", status := none, phase := none, owner := none, notes := some "b" }
        ([] ++ { id := "a1", title := "t", category := "c", severity := "low", phase := "detect",
                 status := "open", reported_at := "t0", updated_at := some "t1",
                 owner := some "", notes := some "a" } :: []) =
      Except.ok ([] ++ { id := "a1", title := "t", category := "c", severity := "low", phase := "detect",
                         status := "open", reported_at := "t0", updated_at := some "t2",
                         owner := some "", notes := some "a\nb" } :: []) :=
  update_notes_append "t1" "t2" "a1" [] []
    { id := "a1", title := "t", category := "c", severity := "low", phase := "detect",
      status := "open", reported_at := "t0", updated_at := none,
      owner := some "", notes := some "" }
    (by decide) rfl rfl

/-! ### Claim C4 -/

/-- C4 counterexample: `add_incident` performs no freshness check on the
generated id; a run whose truncated uuid collides with an existing id
appends a record whose id equals a pre-existing one. -/
theorem add_id_collision_cex :
    (persistedAfterAdd "aaaaaaaa" "t1"
        { title := "x", category := "c", severity := "low", phase := "detect",
          owner := none, notes := none }
        [{ id := "aaaaaaaa", title := "t", category := "c", severity := "low", phase := "detect",
           status := "open", reported_at := "t0", updated_at := none,
           owner := some "", notes := some "" }]).map (fun r => r.id) =
      ["aaaaaaaa", "aaaaaaaa"] := by
  decide

/-- C4 (amended): for a valid lower-cased severity and phase,
`add_incident` appends exactly one record whose fields are the input
with category, severity and phase lower-cased, status `"open"`, and the
freshly generated id; when that id differs from all pre-existing ids —
overwhelmingly likely but not checked by the code — it is unique in the
resulting store. -/
theorem add_valid_spec (genId now : String) (a : AddArgs) (s : List Incident)
    (hsev : pyLower a.severity ∈ SEVERITIES) (hph : pyLower a.phase ∈ NIST_PHASES)
    (hfresh : ∀ r ∈ s, r.id ≠ genId) :
    add_incident genId now a s = Except.ok (s ++ [mkIncident genId now a]) ∧
    persistedAfterAdd genId now a s = s ++ [mkIncident genId now a] ∧
    (mkIncident genId now a).id = genId ∧
    (mkIncident genId now a).title = a.title ∧
    (mkIncident genId now a).category = pyLower a.category ∧
    (mkIncident genId now a).severity = pyLower a.severity ∧
    (mkIncident genId now a).phase = pyLower a.phase ∧
    (mkIncident genId now a).status = "open" ∧
    (mkIncident genId now a).reported_at = now ∧
    ∀ r ∈ s, r.id ≠ (mkIncident genId now a).id := by
  have e : add_incident genId now a s = Except.ok (s ++ [mkIncident genId now a]) := by
    simp [add_incident, mkIncident, hsev, hph]
  exact ⟨e, by unfold persistedAfterAdd; rw [e], rfl, rfl, rfl, rfl, rfl, rfl, rfl, hfresh⟩

/-- C4 witness: adding `severity "Low"`, `phase "Detect"` to a
one-record store with a fresh id. -/
theorem add_valid_spec_witness :
    add_incident "b2b2b2b2" "t3"
        { title := "Phish test", category := "Phishing", severity := "Low", phase := "Detect",
          owner := none, notes := some "n1" }
        [{ id := "a1", title := "t", category := "c", severity := "low", phase := "detect",
           status := "open", reported_at := "t0", updated_at := none,
           owner := some "", notes := some "" }] =
      Except.ok
        ([{ id := "a1", title := "t", category := "c", severity := "low", phase := "detect",
            status := "open", reported_at := "t0", updated_at := none,
            owner := some "", notes := some "" }] ++
         [mkIncident "b2b2b2b2" "t3"
            { title := "Phish test", category := "Phishing", severity := "Low", phase := "Detect",
              owner := none, notes := some "n1" }]) ∧
    persistedAfterAdd "b2b2b2b2" "t3"
        { title := "Phish test", category := "Phishing", severity := "Low", phase := "Detect",
          owner := none, notes := some "n1" }
        [{ id := "a1", title := "t", category := "c", severity := "low", phase := "detect",
           status := "open", reported_at := "t0", updated_at := none,
           owner := some "", notes := some "" }] =
      ([{ id := "a1", title := "t", category := "c", severity := "low", phase := "detect",
          status := "open", reported_at := "t0", updated_at := none,
          owner := some "", notes := some "" }] ++
       [mkIncident "b2b2b2b2" "t3"
          { title := "Phish test", category := "Phishing", severity := "Low", phase := "Detect",
            owner := none, notes := some "n1" }]) ∧
    (mkIncident "b2b2b2b2" "t3"
        { title := "Phish test", category := "Phishing", severity := "Low", phase := "Detect",
          owner := none, notes := some "n1" }).id = "b2b2b2b2" ∧
    (mkIncident "b2b2b2b2" "t3"
        { title := "Phish test", category := "Phishing", severity := "Low", phase := "Detect",
          owner := none, notes := some "n1" }).title = "Phish test" ∧
    (mkIncident "b2b2b2b2" "t3"
        { title := "Phish test", category := "Phishing", severity := "Low", phase := "Detect",
          owner := none, notes := some "n1" }).category = pyLower "Phishing" ∧
    (mkIncident "b2b2b2b2" "t3"
        { title := "Phish test", category := "Phishing", severity := "Low", phase := "Detect",
          owner := none, notes := some "n1" }).severity = pyLower "Low" ∧
    (mkIncident "b2b2b2b2" "t3"
        { title := "Phish test", category := "Phishing", severity := "Low", phase := "Detect",
          owner := none, notes := some "n1" }).phase = pyLower "Detect" ∧
    (mkIncident "b2b2b2b2" "t3"
        { title := "Phish test", category := "Phishing", severity := "Low", phase := "Detect",
          owner := none, notes := some "n1" }).status = "open" ∧
    (mkIncident "b2b2b2b2" "t3"
        { title := "Phish test", category := "Phishing", severity := "Low", phase := "Detect",
          owner := none, notes := some "n1" }).reported_at = "t3" ∧
    ∀ r ∈ ([{ id := "a1", title := "t", category := "c", severity := "low", phase := "detect",
              status := "open", reported_at := "t0", updated_at := none,
              owner := some "", notes := some "" }] : List Incident),
      r.id ≠ (mkIncident "b2b2b2b2" "t3"
        { title := "Phish test", category := "Phishing", severity := "Low", phase := "Detect",
          owner := none, notes := some "n1" }).id :=
  add_valid_spec "b2b2b2b2" "t3" _ _ (by decide) (by decide) (by decide)

/-! ### Claim C9 -/

theorem update_ok_ids (now : String) (a : UpdateArgs) :
    ∀ s s2 : List Incident, update_incident now a s = Except.ok s2 →
      s2.map (fun r => r.id) = s.map (fun r => r.id) := by
  intro s
  induction s with
  | nil => intro s2 h; simp [update_incident] at h
  | cons x xs ih =>
    intro s2 h
    unfold update_incident at h
    split at h
    · cases hs : applyStatus now a x with
      | error e => rw [hs] at h; simp [Except.map] at h
      | ok x2 =>
        rw [hs] at h
        simp only [Except.map, Except.ok.injEq] at h
        rw [← h]
        simp [applyStatus_ok_id now a x x2 hs]
    · cases hu : update_incident now a xs with
      | error e => rw [hu] at h; simp [Except.map] at h
      | ok ys =>
        rw [hu] at h
        simp only [Except.map, Except.ok.injEq] at h
        rw [← h]
        simp [ih ys hu]

theorem add_ok_shape (genId now : String) (a : AddArgs) (s s2 : List Incident)
    (h : add_incident genId now a s = Except.ok s2) :
    s2 = s ++ [mkIncident genId now a] := by
  simp only [add_incident] at h
  split at h
  · simp at h
  · split at h
    · simp at h
    · simp only [Except.ok.injEq] at h
      exact h.symm

/-- C9 (amended): id uniqueness is preserved by the operations under the
freshness of the generated id.  A successful update leaves the id
sequence of the store unchanged, so uniqueness is preserved
unconditionally; a successful add preserves uniqueness provided the
freshly generated id differs from every pre-existing id, a condition the
code relies on probabilistically but never checks. -/
theorem store_ids_nodup (genId now now2 : String) (a : AddArgs) (u : UpdateArgs)
    (s s2 s3 : List Incident)
    (hnodup : (s.map (fun r => r.id)).Nodup)
    (hfresh : ∀ r ∈ s, r.id ≠ genId)
    (hadd : add_incident genId now a s = Except.ok s2)
    (hupd : update_incident now2 u s = Except.ok s3) :
    (s2.map (fun r => r.id)).Nodup ∧
    s3.map (fun r => r.id) = s.map (fun r => r.id) ∧
    (s3.map (fun r => r.id)).Nodup := by
  have hupd2 := update_ok_ids now2 u s s3 hupd
  refine ⟨?_, hupd2, by rw [hupd2]; exact hnodup⟩
  rw [add_ok_shape genId now a s s2 hadd, List.map_append]
  apply List.Nodup.append hnodup (List.nodup_singleton _)
  intro x hx hx2
  simp only [List.map_cons, List.map_nil, List.mem_singleton] at hx2
  obtain ⟨r, hr, hrid⟩ := List.mem_map.mp hx
  exact hfresh r hr (by rw [hrid, hx2]; rfl)

/-- C9 witness: a concrete store on which both a fresh-id add and an
update succeed. -/
theorem store_ids_nodup_witness :
    ((([{ id := "a1", title := "t", category := "c", severity := "low", phase := "detect",
          status := "open", reported_at := "t0", updated_at := none,
          owner := some "", notes := some "" }] : List Incident).map (fun r => r.id)).Nodup) ∧
    (((([{ id := "a1", title := "t", category := "c", severity := "low", phase := "detect",
           status := "open", reported_at := "t0", updated_at := none,
           owner := some "", notes := some "" }] : List Incident) ++
        [mkIncident "b2b2b2b2" "t3"
          { title := "x", category := "c", severity := "low", phase := "detect",
            owner := none, notes := none }]).map (fun r => r.id)).Nodup ∧
      (([{ id := "a1", title := "t", category := "c", severity := "low", phase := "detect",
           status := "open", reported_at := "t0", updated_at := some "t4",
           owner := some "me", notes := some "" }] : List Incident).map (fun r => r.id)) =
        (([{ id := "a1", title := "t", category := "c", severity := "low", phase := "detect",
             status := "open", reported_at := "t0", updated_at := none,
             owner := some "", notes := some "" }] : List Incident).map (fun r => r.id)) ∧
      ((([{ id := "a1", title := "t", category := "c", severity := "low", phase := "detect",
            status := "open", reported_at := "t0", updated_at := some "t4",
            owner := some "me", notes := some "" }] : List Incident).map (fun r => r.id)).Nodup)) :=
  ⟨by decide,
   store_ids_nodup "b2b2b2b2" "t3" "t4"
     { title := "x", category := "c", severity := "low", phase := "detect",
       owner := none, notes := none }
     { id := "a1", status := none, phase := none, owner := some "me", notes := none }
     [{ id := "a1", title := "t", category := "c", severity := "low", phase := "detect",
        status := "open", reported_at := "t0", updated_at := none,
        owner := some "", notes := some "" }]
     (([{ id := "a1", title := "t", category := "c", severity := "low", phase := "detect",
          status := "open", reported_at := "t0", updated_at := none,
          owner := some "", notes := some "" }] : List Incident) ++
      [mkIncident "b2b2b2b2" "t3"
        { title := "x", category := "c", severity := "low", phase := "detect",
          owner := none, notes := none }])
     [{ id := "a1", title := "t", category := "c", severity := "low", phase := "detect",
        status := "open", reported_at := "t0", updated_at := some "t4",
        owner := some "me", notes := some "" }]
     (by decide) (by decide) rfl rfl⟩

/-- C9 counterexample: starting from a store with unique ids — itself
reachable — an add whose generated id collides produces a store with two
equal ids; no operation checks for the collision. -/
theorem ids_collision_cex :
    ((([{ id := "c3c3c3c3", title := "t", category := "c", severity := "low", phase := "detect",
          status := "open", reported_at := "t0", updated_at := none,
          owner := some "", notes := some "" }] : List Incident).map (fun r => r.id)).Nodup) ∧
    ¬ (((persistedAfterAdd "c3c3c3c3" "t5"
          { title := "y", category := "c", severity := "high", phase := "respond",
            owner := none, notes := none }
          [{ id := "c3c3c3c3", title := "t", category := "c", severity := "low", phase := "detect",
             status := "open", reported_at := "t0", updated_at := none,
             owner := some "", notes := some "" }]).map (fun r => r.id)).Nodup) := by
  constructor
  · decide
  · decide

/-! ### Claim C7 -/

theorem bool_imp_equiv (x y : Bool) : ((!x || y) = true) ↔ (x = true → y = true) := by
  cases x <;> cases y <;> simp

/-- C7 counterexample: the severity predicate lower-cases only the
argument, not the stored value; a record whose stored severity is
`"LOW"` is excluded by `list --severity LOW` although the two values are
equal case-insensitively. -/
theorem filter_case_sensitive_cex :
    list_incidents { severity := some "LOW", phase := none, status := none, owner := none }
        [{ id := "x1", title := "t", category := "c", severity := "LOW", phase := "detect",
           status := "open", reported_at := "t0", updated_at := none,
           owner := none, notes := none }] = [] ∧
    pyLower ({ id := "x1", title := "t", category := "c", severity := "LOW", phase := "detect",
               status := "open", reported_at := "t0", updated_at := none,
               owner := none, notes := none } : Incident).severity = pyLower "LOW" := by
  constructor
  · decide
  · decide

/-- C7 (amended): `list_incidents` keeps exactly the records, in store
order, for which every truthy predicate matches — severity, phase and
status compare the stored value against the lower-cased argument
(case-insensitive in the argument only), owner compares both sides
lower-cased with absent owner read as the empty string; non-truthy
predicates impose no constraint, and the result is independent of the
order in which predicate passes are applied, and idempotent. -/
theorem list_incidents_spec (a b : ListArgs) (s : List Incident) :
    (∀ r, r ∈ list_incidents a s ↔ r ∈ s ∧
        (truthy a.severity = true → r.severity = pyLower (a.severity.getD "")) ∧
        (truthy a.phase = true → r.phase = pyLower (a.phase.getD "")) ∧
        (truthy a.status = true → r.status = pyLower (a.status.getD "")) ∧
        (truthy a.owner = true → pyLower (r.owner.getD "") = pyLower (a.owner.getD ""))) ∧
    (list_incidents a s).Sublist s ∧
    list_incidents a (list_incidents b s) = list_incidents b (list_incidents a s) ∧
    list_incidents a (list_incidents a s) = list_incidents a s := by
  refine ⟨?_, ?_, ?_, ?_⟩
  · intro r
    simp only [list_incidents, List.mem_filter, passes, Bool.and_eq_true, bool_imp_equiv,
      beq_iff_eq]
    tauto
  · exact List.filter_sublist s
  · simp only [list_incidents, List.filter_filter]
    have : (fun x => passes b x && passes a x) = (fun x => passes a x && passes b x) := by
      funext x
      exact Bool.and_comm _ _
    rw [this]
  · simp only [list_incidents, List.filter_filter]
    have : (fun x => passes a x && passes a x) = (fun x => passes a x) := by
      funext x
      exact Bool.and_self _
    rw [this]

/-! ### Claim C8 -/

theorem dedupFirst_mem : ∀ xs : List String, ∀ y, y ∈ dedupFirst xs ↔ y ∈ xs := by
  intro xs
  induction xs using dedupFirst.induct with
  | case1 => simp [dedupFirst]
  | case2 x xs ih =>
    intro y
    simp only [dedupFirst, List.mem_cons, ih, List.mem_filter]
    by_cases hyx : y = x
    · simp [hyx]
    · simp [hyx]

theorem dedupFirst_nodup : ∀ xs : List String, (dedupFirst xs).Nodup := by
  intro xs
  induction xs using dedupFirst.induct with
  | case1 => simp [dedupFirst]
  | case2 x xs ih =>
    simp only [dedupFirst]
    refine List.nodup_cons.mpr ⟨?_, ih⟩
    intro hmem
    rw [dedupFirst_mem] at hmem
    simp [List.mem_filter] at hmem

theorem count_split (x : String) : ∀ xs : List String,
    xs.length = xs.count x + (xs.filter (fun y => !(y == x))).length := by
  intro xs
  induction xs with
  | nil => rfl
  | cons z zs ih =>
    by_cases h : z = x
    · subst h
      have hf : (z :: zs).filter (fun y => !(y == z)) = zs.filter (fun y => !(y == z)) := by
        simp [List.filter_cons]
      rw [List.length_cons, List.count_cons_self, hf]
      omega
    · have hne : x ≠ z := fun e => h e.symm
      have hz : (z == x) = false := by simpa using h
      have hf : (z :: zs).filter (fun y => !(y == x)) =
          z :: zs.filter (fun y => !(y == x)) := by
        simp [List.filter_cons, hz]
      rw [List.length_cons, List.count_cons_of_ne hne, hf, List.length_cons]
      omega

theorem counter_sum : ∀ xs : List String, ((counter xs).map (fun p => p.2)).sum = xs.length := by
  intro xs
  induction xs using dedupFirst.induct with
  | case1 => simp [counter, dedupFirst]
  | case2 x xs ih =>
    have hagree : ∀ k ∈ dedupFirst (xs.filter (fun y => !(y == x))),
        (x :: xs).count k = (xs.filter (fun y => !(y == x))).count k := by
      intro k hk
      rw [dedupFirst_mem] at hk
      rw [List.mem_filter] at hk
      have hkx : (k == x) = false := by
        have h2 := hk.2
        simpa using h2
      have hne : k ≠ x := by simpa using hkx
      rw [List.count_cons_of_ne hne]
      exact (List.count_filter (by simpa using hkx)).symm
    have e1 : ((counter (x :: xs)).map (fun p => p.2)) =
        (x :: dedupFirst (xs.filter (fun y => !(y == x)))).map
          (fun k => (x :: xs).count k) := by
      simp [counter, List.map_map, dedupFirst, Function.comp]
    have e2 : ((dedupFirst (xs.filter (fun y => !(y == x)))).map
        (fun k => (xs.filter (fun y => !(y == x))).count k)).sum =
        (xs.filter (fun y => !(y == x))).length := by
      have e3 : (dedupFirst (xs.filter (fun y => !(y == x)))).map
          (fun k => (xs.filter (fun y => !(y == x))).count k) =
          (counter (xs.filter (fun y => !(y == x)))).map (fun p => p.2) := by
        simp [counter, List.map_map, Function.comp]
      rw [e3, ih]
    rw [e1, List.map_cons, List.sum_cons, List.map_congr_left hagree, e2,
      List.count_cons_self]
    have e4 := count_split x xs
    simp only [List.length_cons]
    omega

theorem counter_keys (xs : List String) :
    (counter xs).map (fun p => p.1) = dedupFirst xs := by
  unfold counter
  rw [List.map_map]
  exact List.map_id _

/-- C8: each of the three groupings produced by `stats` — by severity,
by phase, by status — has counts summing to the total number of records,
and its keys are exactly the distinct values observed in the records
(no duplicates, no unobserved keys). -/
theorem stats_spec (data : List Incident) :
    (((stats data).1.map (fun p => p.2)).sum = data.length ∧
      ((stats data).1.map (fun p => p.1)).Nodup ∧
      ∀ k, k ∈ (stats data).1.map (fun p => p.1) ↔ k ∈ data.map (fun d => d.severity)) ∧
    (((stats data).2.1.map (fun p => p.2)).sum = data.length ∧
      ((stats data).2.1.map (fun p => p.1)).Nodup ∧
      ∀ k, k ∈ (stats data).2.1.map (fun p => p.1) ↔ k ∈ data.map (fun d => d.phase)) ∧
    (((stats data).2.2.map (fun p => p.2)).sum = data.length ∧
      ((stats data).2.2.map (fun p => p.1)).Nodup ∧
      ∀ k, k ∈ (stats data).2.2.map (fun p => p.1) ↔ k ∈ data.map (fun d => d.status)) := by
  refine ⟨⟨?_, ?_, ?_⟩, ⟨?_, ?_, ?_⟩, ⟨?_, ?_, ?_⟩⟩
  · have h := counter_sum (data.map (fun d => d.severity))
    simpa [stats] using h
  · rw [show (stats data).1 = counter (data.map (fun d => d.severity)) from rfl, counter_keys]
    exact dedupFirst_nodup _
  · intro k
    rw [show (stats data).1 = counter (data.map (fun d => d.severity)) from rfl, counter_keys,
      dedupFirst_mem]
  · have h := counter_sum (data.map (fun d => d.phase))
    simpa [stats] using h
  · rw [show (stats data).2.1 = counter (data.map (fun d => d.phase)) from rfl, counter_keys]
    exact dedupFirst_nodup _
  · intro k
    rw [show (stats data).2.1 = counter (data.map (fun d => d.phase)) from rfl, counter_keys,
      dedupFirst_mem]
  · have h := counter_sum (data.map (fun d => d.status))
    simpa [stats] using h
  · rw [show (stats data).2.2 = counter (data.map (fun d => d.status)) from rfl, counter_keys]
    exact dedupFirst_nodup _
  · intro k
    rw [show (stats data).2.2 = counter (data.map (fun d => d.status)) from rfl, counter_keys,
      dedupFirst_mem]
